import Mathlib

/-!
# Verification of the CSP-MED thermal-storage model

Shallow embedding of `med_solar_simulation.py` over exact rationals:

* `MEDParameters` embeds the `MEDParameters` dataclass (the unused
  `feed_config` string field is omitted: only the forward-feed branch exists).
* The property correlations `latent_heat`, `specific_heat_capacity` and
  `heat_transfer_coefficient_evaporator` embed `MEDModel._latent_heat`,
  `MEDModel._specific_heat_capacity` and
  `MEDModel._heat_transfer_coefficient_evaporator`.
* `T_effect`, `preheatResult`, `effects` and the aggregate metrics embed the
  phases of `MEDModel.solve`; `pythonScalarDenominators` records the only
  divisions of `solve` that CPython could turn into a `ZeroDivisionError`
  (all the others have numpy-scalar operands and degrade to nan/inf with a
  `RuntimeWarning` instead of raising).
* `dispatchStep` / `simulate_daily_operation` embed
  `SolarIntegratedMEDModel.simulate_daily_operation`.

All arithmetic is exact (`ℚ`); the Python source computes with IEEE doubles,
so concrete evaluations here are the real-number values of the same formulas.
-/

/-- Embeds the `MEDParameters` dataclass (fields in source order; the string
field `feed_config` is omitted — only forward feed is implemented). -/
structure MEDParameters where
  n_effects : ℕ
  T_steam : ℚ
  T_feed : ℚ
  T_cw : ℚ
  M_feed : ℚ
  S_feed : ℚ
  BPE : ℚ
  TTD_preheater : ℚ
  solar_collector_area : ℚ
  storage_capacity_kWh : ℚ
  solar_efficiency : ℚ
deriving DecidableEq

/-- The default parameter values of the dataclass. -/
def defaultParams : MEDParameters :=
  ⟨8, 70, 25, 20, 30, 42000, 8/10, 3/2, 10000, 50000, 7/10⟩

/-- `MEDModel._latent_heat`: 2.501e6 - 2.369e3*T + 1.676*T^2 - 1.517e-2*T^3. -/
def latent_heat (T : ℚ) : ℚ :=
  2501000 - 2369 * T + (1676/1000) * T^2 - (1517/100000) * T^3

/-- `MEDModel._specific_heat_capacity`:
Cp = 4187 - 7.55*T + 0.046*T^2 + (S/1000)*(-54.6 + 0.38*T). -/
def specific_heat_capacity (T S : ℚ) : ℚ :=
  4187 - (755/100) * T + (46/1000) * T^2 + (S/1000) * (-(546/10) + (38/100) * T)

/-- `MEDModel._heat_transfer_coefficient_evaporator`: 2000 + 40*T. -/
def heat_transfer_coefficient_evaporator (T : ℚ) : ℚ :=
  2000 + 40 * T

/-- `delta_T_total = (T_steam - T_cw - n*BPE) / (n + 1)` (line 81). -/
def delta_T_total (p : MEDParameters) : ℚ :=
  (p.T_steam - p.T_cw - p.n_effects * p.BPE) / (p.n_effects + 1)

/-- `T_effect[i] = T_steam - (i+1)*delta_T_total - BPE` (line 85). -/
def T_effect (p : MEDParameters) (i : ℕ) : ℚ :=
  p.T_steam - (i + 1) * delta_T_total p - p.BPE

/-- One iteration of the backward preheat loop (lines 94-109) at stage `i`.
State: running feed temperature `T_feed_in[0]` and the `M_vapor_preheat`
assignment map. -/
def preheatStageFold (p : MEDParameters) (st : ℚ × (ℕ → ℚ)) (i : ℕ) :
    ℚ × (ℕ → ℚ) :=
  let target := T_effect p i - p.TTD_preheater
  if st.1 < target then
    let T_avg := (target + st.1) / 2
    let Cp := specific_heat_capacity T_avg p.S_feed
    let Q := p.M_feed * Cp * (target - st.1)
    let lam := latent_heat (T_effect p (i - 1))
    (target, Function.update st.2 (i - 1) (Q / lam))
  else st

/-- The stage indices of the backward preheat loop,
`range(n-1, 0, -1) = [n-1, n-2, ..., 1]`. -/
def preheatStages (p : MEDParameters) : List ℕ :=
  ((List.range (p.n_effects - 1)).map (· + 1)).reverse

/-- The backward preheat pass (lines 89-109): final preheated feed
temperature `T_feed_in[0]` and the array `M_vapor_preheat`. -/
def preheatResult (p : MEDParameters) : ℚ × (ℕ → ℚ) :=
  (preheatStages p).foldl (preheatStageFold p) (p.T_feed, fun _ => 0)

/-- `T_feed_in[0]` after the backward preheat pass. -/
def T_feed_in0 (p : MEDParameters) : ℚ :=
  (preheatResult p).1

/-- `M_vapor_preheat[i]`: vapor extracted from effect `i` for preheating. -/
def M_vapor_preheat (p : MEDParameters) (i : ℕ) : ℚ :=
  (preheatResult p).2 i

/-- `M_steam = (M_feed * 0.12) / 5.14` (lines 116-117). -/
def M_steam (p : MEDParameters) : ℚ :=
  p.M_feed * (12/100) / (514/100)

/-- Per-effect results of the forward pass of `MEDModel.solve`. -/
structure EffectResult where
  T_in : ℚ
  S_in : ℚ
  feed : ℚ
  Q_input : ℚ
  vapor : ℚ
  brine : ℚ
  S_brine : ℚ
  area : ℚ
deriving DecidableEq

/-- Body of one forward-pass iteration (lines 143-175) for effect `i`, given
its feed inlet temperature, feed salinity, feed flow and heat input. -/
def mkEffect (p : MEDParameters) (i : ℕ) (Tin Sin feed Qin : ℚ) :
    EffectResult :=
  let lam := latent_heat (T_effect p i)
  let Cp := specific_heat_capacity Tin Sin
  let sensible := max 0 (feed * Cp * (T_effect p i - Tin))
  let vapor := max 0 ((Qin - sensible) / lam)
  let brine := feed - vapor
  let Sb := if brine > 1/1000000 then feed * Sin / brine else Sin
  let h := heat_transfer_coefficient_evaporator (T_effect p i)
  let dT := if i = 0 then p.T_steam - T_effect p i - p.BPE
            else T_effect p (i - 1) - T_effect p i - p.BPE
  let area := if dT > 0 then Qin / (h * dT) else 0
  ⟨Tin, Sin, feed, Qin, vapor, brine, Sb, area⟩

/-- The forward pass (lines 120-180): effect `0` is driven by external steam;
effect `i+1` is driven by effect `i`'s vapor minus the preheat extraction,
floored at zero (lines 133-137), with feed and salinity propagated from the
previous brine (lines 178-180) and feed inlet temperature set to the previous
effect's boiling temperature (line 141). -/
def effects (p : MEDParameters) : ℕ → EffectResult
  | 0 =>
    let Qin := M_steam p * latent_heat p.T_steam
    mkEffect p 0 (T_feed_in0 p) p.S_feed p.M_feed Qin
  | i + 1 =>
    let prev := effects p i
    let avail := max 0 (prev.vapor - M_vapor_preheat p i)
    let Qin := avail * latent_heat (T_effect p i)
    mkEffect p (i + 1) (T_effect p i) prev.S_brine prev.brine Qin

/-- `M_total_distillate = sum(M_vapor)` (line 184). -/
def M_total_distillate (p : MEDParameters) : ℚ :=
  ((List.range p.n_effects).map (fun i => (effects p i).vapor)).sum

/-- `GOR`: guarded ratio (lines 186-189). -/
def GOR (p : MEDParameters) : ℚ :=
  if M_steam p > 0 then M_total_distillate p / M_steam p else 0

/-- `total_area = sum(A_effect)` (line 191). -/
def total_area (p : MEDParameters) : ℚ :=
  ((List.range p.n_effects).map (fun i => (effects p i).area)).sum

/-- `As`: guarded specific area (lines 192-195). -/
def As (p : MEDParameters) : ℚ :=
  if M_total_distillate p > 0 then total_area p / M_total_distillate p else 0

/-- `Q_nominal_W = M_steam * latent_heat(T_steam)` (line 197). -/
def Q_nominal_W (p : MEDParameters) : ℚ :=
  M_steam p * latent_heat p.T_steam

/-- `WRR = M_total_distillate / M_feed * 100` (line 200). The numerator is
the numpy scalar `np.sum(self.M_vapor)`, so in Python this division by
`M_feed = 0.0` yields nan with a `RuntimeWarning` rather than raising;
here `/` is total rational division (yielding 0 at `M_feed = 0`). -/
def WRR (p : MEDParameters) : ℚ :=
  M_total_distillate p / p.M_feed * 100

/-! ## Exception surface of `MEDModel.solve`

CPython raises `ZeroDivisionError` only when a division of plain Python
scalars has denominator zero; a division with a numpy-scalar operand goes
through numpy, which under its default error state returns nan/inf with a
`RuntimeWarning` instead of raising. In `solve`, every value read from the
working arrays (`T_effect`, `M_feed`, `M_vapor`, ... created by `np.zeros`)
is an `np.float64`, so the divisions at lines 100, 107, 151, 158, 173, 187,
193 and 200 all have a numpy-scalar operand and can never raise — in
particular the unguarded `WRR` division at line 200 yields nan at zero feed
flow. Only two divisions act on plain Python scalars: line 81
(`/ (self.n + 1)`, with `n` a non-negative int, since `np.zeros(n)` in the
constructor requires `n ≥ 0`) and line 117 (`/ 5.14`). -/

/-- The denominators of the only two divisions in `MEDModel.solve` whose
operands are plain Python scalars (lines 81 and 117): the ones where a zero
denominator would raise `ZeroDivisionError`. -/
def pythonScalarDenominators (p : MEDParameters) : List ℚ :=
  [(p.n_effects : ℚ) + 1, 514/100]

/-! ## Dispatch simulator (`SolarIntegratedMEDModel`) -/

/-- The `mode` strings of `simulate_daily_operation`:
`solarCharge` = "Solar + Charge", `solarDraw` = "Solar + Draw",
`solarPartialDraw` = "Solar + Partial Draw", `storageOnly` = "Storage Only",
`partialStorage` = "Partial Storage", `off` = "Off". -/
inductive Mode where
  | solarCharge
  | solarDraw
  | solarPartialDraw
  | storageOnly
  | partialStorage
  | off
deriving DecidableEq

/-- `storage_capacity_J = storage_capacity_kWh * 3600` (line 226, as written
in the source; the comment there says "Convert kWh to J"). -/
def storage_capacity_J (p : MEDParameters) : ℚ :=
  p.storage_capacity_kWh * 3600

/-- `_solar_heat_input`: irradiance * collector area * efficiency. -/
def Q_solar_W (p : MEDParameters) (irradiance : ℚ) : ℚ :=
  irradiance * p.solar_collector_area * p.solar_efficiency

/-- Outcome of one hour of the energy-management logic. -/
structure DispatchStep where
  Q_med_W : ℚ
  storage_J : ℚ
  mode : Mode
deriving DecidableEq

/-- One hour of the energy-management logic (lines 249-291), given capacity
`C`, nominal demand `Qnom`, current storage `S` and solar power `Qsol`.
`Q_med_W` is initialized to `0.0` (line 249); note that the "Solar + Draw"
branch of the source never assigns it, so it stays `0` there. -/
def dispatchStep (C Qnom S Qsol : ℚ) : DispatchStep :=
  if Qnom ≤ Qsol then
    ⟨Qnom, min C (S + (Qsol - Qnom) * 3600), Mode.solarCharge⟩
  else if 0 < Qsol ∧ Qsol < Qnom then
    let draw := (Qnom - Qsol) * 3600
    if draw ≤ S then
      ⟨0, S - draw, Mode.solarDraw⟩
    else
      ⟨Qsol + S / 3600, 0, Mode.solarPartialDraw⟩
  else if Qsol = 0 ∧ 0 < S then
    let demand := Qnom * 3600
    if demand ≤ S then
      ⟨Qnom, S - demand, Mode.storageOnly⟩
    else
      ⟨S / 3600, 0, Mode.partialStorage⟩
  else
    ⟨0, S, Mode.off⟩

/-- One entry of `hourly_results` (lines 303-310; the reported
`Q_med_MW` and `storage_MWh` rescalings are omitted, the underlying
`Q_med_W` and `storage_J` values are kept). -/
structure HourRecord where
  hour : ℕ
  irradiance : ℚ
  Q_med_W : ℚ
  storage_J : ℚ
  distillate_kg_s : ℚ
  mode : Mode
deriving DecidableEq

/-- `M_distillate_kg_s` for one hour (lines 295-299), given the plant's
steam temperature, the hour's delivered heat and the fixed GOR. -/
def hourDistillate (p : MEDParameters) (g Qmed : ℚ) : ℚ :=
  if 0 < Qmed ∧ 0 < g then Qmed / latent_heat p.T_steam * g else 0

/-- The hourly loop of `simulate_daily_operation` (lines 245-310), threading
the storage level through the `(hour, irradiance)` list. -/
def simulateFrom (p : MEDParameters) (Qnom g : ℚ) :
    ℚ → List (ℕ × ℚ) → List HourRecord
  | _, [] => []
  | S, (h, irr) :: rest =>
    let st := dispatchStep (storage_capacity_J p) Qnom S (Q_solar_W p irr)
    ⟨h, irr, st.Q_med_W, st.storage_J, hourDistillate p g st.Q_med_W,
      st.mode⟩ :: simulateFrom p Qnom g st.storage_J rest

/-- `simulate_daily_operation` (lines 233-318): initial storage is half of
capacity (line 238); `Qnom` and `g` are the `Q_nominal_W` and `GOR` entries
of the steady-state results dict the simulator is constructed with. -/
def simulate_daily_operation (p : MEDParameters) (Qnom g : ℚ)
    (solar_resource : List (ℕ × ℚ)) : List HourRecord :=
  simulateFrom p Qnom g (storage_capacity_J p / 2) solar_resource

/-! ## Named parameter sets used in concrete scenarios -/

/-- Default parameters with the preheater TTD raised to 20 °C. -/
def highTTDParams : MEDParameters :=
  ⟨8, 70, 25, 20, 30, 42000, 8/10, 20, 10000, 50000, 7/10⟩

/-- A single-effect parameter set with extreme temperatures (hot feed,
very hot cooling water), far outside the correlations' validity range. -/
def extremeParams : MEDParameters :=
  ⟨1, 30, 500, 940, 30, 42000, 0, 3/2, 10000, 50000, 7/10⟩

/-- Default parameters with the boiling-point elevation raised to 10 °C,
so that `n * BPE` exceeds the total temperature drop `T_steam - T_cw`. -/
def highBPEParams : MEDParameters :=
  ⟨8, 70, 25, 20, 30, 42000, 10, 3/2, 10000, 50000, 7/10⟩

/-- Default parameters with zero feed flow. -/
def zeroFeedParams : MEDParameters :=
  ⟨8, 70, 25, 20, 0, 42000, 8/10, 3/2, 10000, 50000, 7/10⟩

/-- A 24-hour all-zero irradiance sequence. -/
def zeroDay24 : List (ℕ × ℚ) :=
  (List.range 24).map fun h => (h, 0)

/-! ## Helper lemmas -/

/-- Every field equation of one forward-pass iteration: the vapor is a
`max 0`, the brine is feed minus vapor, the salinity is guarded. -/
theorem mkEffect_brine_eq (p : MEDParameters) (i : ℕ) (Tin Sin feed Qin : ℚ) :
    (mkEffect p i Tin Sin feed Qin).brine =
      feed - (mkEffect p i Tin Sin feed Qin).vapor := rfl

/-- The vapor of any forward-pass iteration is clamped at zero. -/
theorem mkEffect_vapor_nonneg (p : MEDParameters) (i : ℕ)
    (Tin Sin feed Qin : ℚ) : 0 ≤ (mkEffect p i Tin Sin feed Qin).vapor :=
  le_max_left 0 _

/-- Vapor produced by every effect is non-negative, for any parameters. -/
theorem vapor_nonneg (p : MEDParameters) (i : ℕ) : 0 ≤ (effects p i).vapor := by
  cases i with
  | zero => exact mkEffect_vapor_nonneg p 0 _ _ _ _
  | succ n => exact mkEffect_vapor_nonneg p (n + 1) _ _ _ _

/-- With non-negative heat input and heat-transfer coefficient, the area of a
forward-pass iteration is non-negative (it is zero when the driving
temperature difference is not positive). -/
theorem mkEffect_area_nonneg (p : MEDParameters) (i : ℕ)
    (Tin Sin feed Qin : ℚ) (hQ : 0 ≤ Qin)
    (hh : 0 ≤ heat_transfer_coefficient_evaporator (T_effect p i)) :
    0 ≤ (mkEffect p i Tin Sin feed Qin).area := by
  unfold mkEffect
  dsimp only
  split_ifs <;>
    first
      | exact le_refl 0
      | exact div_nonneg hQ (mul_nonneg hh (le_of_lt (by assumption)))

/-- One dispatch hour keeps the storage level inside `[0, C]` when the
capacity `C` is non-negative. -/
theorem dispatchStep_storage_bounds (C Qnom S Qsol : ℚ) (hC : 0 ≤ C)
    (h0 : 0 ≤ S) (h1 : S ≤ C) :
    0 ≤ (dispatchStep C Qnom S Qsol).storage_J ∧
      (dispatchStep C Qnom S Qsol).storage_J ≤ C := by
  unfold dispatchStep
  dsimp only
  split_ifs with hc1 hc2 hc3 hc4 hc5 <;> dsimp only
  · exact ⟨le_min hC (by linarith), min_le_left _ _⟩
  · exact ⟨by linarith, by linarith [hc2.1, hc2.2]⟩
  · exact ⟨le_refl 0, hC⟩
  · have hQnom : 0 < Qnom := by
      rcases hc4 with ⟨hz, _⟩
      rw [hz] at hc1
      linarith [lt_of_not_le hc1]
    exact ⟨by linarith, by linarith⟩
  · exact ⟨le_refl 0, hC⟩
  · exact ⟨h0, h1⟩

/-- The hourly fold keeps every recorded storage level inside `[0, C]`. -/
theorem simulateFrom_storage_bounds (p : MEDParameters) (Qnom g : ℚ)
    (hC : 0 ≤ storage_capacity_J p) :
    ∀ (L : List (ℕ × ℚ)) (S : ℚ), 0 ≤ S → S ≤ storage_capacity_J p →
      ∀ r ∈ simulateFrom p Qnom g S L,
        0 ≤ r.storage_J ∧ r.storage_J ≤ storage_capacity_J p
  | [], S, _, _ => by intro r hr; simp [simulateFrom] at hr
  | (h, irr) :: rest, S, h0, h1 => by
    intro r hr
    have hstep := dispatchStep_storage_bounds (storage_capacity_J p) Qnom S
      (Q_solar_W p irr) hC h0 h1
    rw [simulateFrom] at hr
    rcases List.mem_cons.mp hr with hhead | htail
    · rw [hhead]
      exact hstep
    · exact simulateFrom_storage_bounds p Qnom g hC rest _ hstep.1 hstep.2
        r htail

/-! ## Claim theorems -/

/-- C2: starting from half capacity, for every sequence of hours with
non-negative irradiance, every recorded storage level lies in
`[0, storage_capacity_J]` (the simulator's internal capacity value),
provided the configured capacity is non-negative. -/
theorem storage_level_within_capacity (p : MEDParameters) (Qnom g : ℚ)
    (hC : 0 ≤ p.storage_capacity_kWh) (res : List (ℕ × ℚ))
    (hirr : ∀ x ∈ res, 0 ≤ x.2) :
    ∀ r ∈ simulate_daily_operation p Qnom g res,
      0 ≤ r.storage_J ∧ r.storage_J ≤ storage_capacity_J p := by
  have hCJ : 0 ≤ storage_capacity_J p := mul_nonneg hC (by norm_num)
  exact simulateFrom_storage_bounds p Qnom g hCJ res _ (by linarith)
    (by linarith)

/-- Witness for C2 at the default parameters on a one-hour input. -/
theorem storage_level_within_capacity_witness :
    0 ≤ (90000000 : ℚ) ∧ (90000000 : ℚ) ≤ storage_capacity_J defaultParams :=
  storage_level_within_capacity defaultParams 0 0 (by norm_num [defaultParams])
    [(0, 0)] (by norm_num) ⟨0, 0, 0, 90000000, 0, Mode.solarCharge⟩
    (by norm_num [simulate_daily_operation, simulateFrom, dispatchStep,
      hourDistillate, storage_capacity_J, Q_solar_W, defaultParams])

/-- C1 (code bug): at default parameters with irradiance 233 W/m², all
"Solar + Draw" conditions of the claim hold (0 < Q_solar < Q_nominal and
stored energy covers the hourly deficit), the storage decreases by exactly
(Q_nominal − Q_solar)·3600 J and the record is labelled Solar + Draw — but
the heat delivered to the plant is 0, not Q_nominal, because the source
never assigns `Q_med_W` in this branch (lines 265-267). -/
theorem solar_draw_hour_delivers_zero_heat :
    0 < Q_solar_W defaultParams 233 ∧
    Q_solar_W defaultParams 233 < Q_nominal_W defaultParams ∧
    (Q_nominal_W defaultParams - Q_solar_W defaultParams 233) * 3600
        ≤ storage_capacity_J defaultParams / 2 ∧
    0 < Q_nominal_W defaultParams ∧
    simulate_daily_operation defaultParams (Q_nominal_W defaultParams)
        (GOR defaultParams) [(6, 233)] =
      [⟨6, 233, 0,
        storage_capacity_J defaultParams / 2 -
          (Q_nominal_W defaultParams - Q_solar_W defaultParams 233) * 3600,
        0, Mode.solarDraw⟩] := by
  norm_num [simulate_daily_operation, simulateFrom, dispatchStep,
    hourDistillate, storage_capacity_J, Q_solar_W, Q_nominal_W, M_steam,
    latent_heat, defaultParams]

/-- C10: the simulator's internal capacity is `storage_capacity_kWh * 3600`
joules (not `* 3.6e6`), the initial storage is `storage_capacity_kWh * 1800`
joules, and the whole hourly fold runs against this value. -/
theorem storage_capacity_units (p : MEDParameters)
    (h : p.storage_capacity_kWh ≠ 0) :
    storage_capacity_J p = p.storage_capacity_kWh * 3600 ∧
    storage_capacity_J p ≠ p.storage_capacity_kWh * 3600000 ∧
    (∀ (Qnom g : ℚ) (res : List (ℕ × ℚ)),
      simulate_daily_operation p Qnom g res =
        simulateFrom p Qnom g (p.storage_capacity_kWh * 1800) res) := by
  refine ⟨rfl, ?_, ?_⟩
  · intro hfalse
    unfold storage_capacity_J at hfalse
    have h0 : p.storage_capacity_kWh * 3596400 = 0 := by linarith
    rcases mul_eq_zero.mp h0 with h1 | h1
    · exact h h1
    · norm_num at h1
  · intro Qnom g res
    unfold simulate_daily_operation storage_capacity_J
    congr 1
    ring

/-- Witness for C10 at the default parameters. -/
theorem storage_capacity_units_witness :
    storage_capacity_J defaultParams =
        defaultParams.storage_capacity_kWh * 3600 ∧
    storage_capacity_J defaultParams ≠
        defaultParams.storage_capacity_kWh * 3600000 ∧
    simulate_daily_operation defaultParams 1 0 [] =
      simulateFrom defaultParams 1 0
        (defaultParams.storage_capacity_kWh * 1800) [] :=
  ⟨(storage_capacity_units defaultParams (by norm_num [defaultParams])).1,
   (storage_capacity_units defaultParams (by norm_num [defaultParams])).2.1,
   (storage_capacity_units defaultParams (by norm_num [defaultParams])).2.2
     1 0 []⟩

/-- With positive nominal demand, zero storage and all-zero irradiance,
every hour is an Off hour: no heat, no storage change. -/
theorem simulateFrom_zero_off (p : MEDParameters) (Qnom g : ℚ)
    (hQ : 0 < Qnom) :
    ∀ (L : List (ℕ × ℚ)), (∀ x ∈ L, x.2 = 0) →
      (simulateFrom p Qnom g 0 L).map
          (fun r => (r.Q_med_W, r.storage_J, r.mode)) =
        L.map (fun _ => ((0 : ℚ), (0 : ℚ), Mode.off))
  | [], _ => rfl
  | (h, irr) :: rest, hL => by
    have hirr : irr = 0 := hL (h, irr) (List.mem_cons_self _ _)
    have hrest := simulateFrom_zero_off p Qnom g hQ rest
      (fun x hx => hL x (List.mem_cons_of_mem _ hx))
    subst hirr
    rw [simulateFrom]
    have hstep : dispatchStep (storage_capacity_J p) Qnom 0 (Q_solar_W p 0)
        = ⟨0, 0, Mode.off⟩ := by
      have hsol : Q_solar_W p 0 = 0 := by
        unfold Q_solar_W
        rw [zero_mul, zero_mul]
      rw [hsol]
      unfold dispatchStep
      rw [if_neg (by linarith), if_neg (by simp), if_neg (by simp)]
    rw [hstep]
    dsimp only
    rw [List.map_cons, List.map_cons, hrest]

/-- C3 amended: when the stored energy is positive but below one hour of
nominal demand (which is the situation after the kWh·3600 capacity
conversion at the default parameters), a zero-irradiance day has no
full-output hour at all: the first hour runs in Partial Storage mode
delivering `S0/3600` W and zeroing the store, and every later hour is Off. -/
theorem zero_irradiance_partial_then_off (p : MEDParameters)
    (Qnom g S0 : ℚ) (x : ℕ × ℚ) (rest : List (ℕ × ℚ)) (hx : x.2 = 0)
    (hrest : ∀ y ∈ rest, y.2 = 0) (hS0 : 0 < S0)
    (hlt : S0 < Qnom * 3600) :
    (simulateFrom p Qnom g S0 (x :: rest)).map
        (fun r => (r.Q_med_W, r.storage_J, r.mode)) =
      (S0 / 3600, 0, Mode.partialStorage) ::
        rest.map (fun _ => ((0 : ℚ), (0 : ℚ), Mode.off)) := by
  have hQ : 0 < Qnom := by linarith
  obtain ⟨hh, hi⟩ := x
  have hi0 : hi = 0 := hx
  subst hi0
  rw [simulateFrom]
  have hstep : dispatchStep (storage_capacity_J p) Qnom S0 (Q_solar_W p 0)
      = ⟨S0 / 3600, 0, Mode.partialStorage⟩ := by
    have hsol : Q_solar_W p 0 = 0 := by
      unfold Q_solar_W
      rw [zero_mul, zero_mul]
    rw [hsol]
    unfold dispatchStep
    rw [if_neg (by linarith), if_neg (by simp), if_pos ⟨rfl, hS0⟩,
      if_neg (by linarith)]
  rw [hstep]
  dsimp only
  rw [List.map_cons, simulateFrom_zero_off p Qnom g hQ rest hrest]

/-- C3 counterexample: at default parameters, a 24-hour all-zero day has NO
hour delivering the nominal load (hour 0 is Partial Storage at 25000 W, all
later hours are Off), while the claim's predicted count of full-output
hours, storage_capacity_kWh / (Q_nominal in kW) ≈ 30.5, exceeds 24. -/
theorem zero_irradiance_no_full_output_hour :
    (simulate_daily_operation defaultParams (Q_nominal_W defaultParams)
        (GOR defaultParams) zeroDay24).map (fun r => (r.Q_med_W, r.mode)) =
      ((25000 : ℚ), Mode.partialStorage) ::
        (List.range 23).map (fun _ => ((0 : ℚ), Mode.off)) ∧
    (25000 : ℚ) ≠ Q_nominal_W defaultParams ∧
    (0 : ℚ) ≠ Q_nominal_W defaultParams ∧
    24 < defaultParams.storage_capacity_kWh /
        (Q_nominal_W defaultParams / 1000) := by
  norm_num [zeroDay24, simulate_daily_operation, simulateFrom, dispatchStep,
    hourDistillate, storage_capacity_J, Q_solar_W, Q_nominal_W, M_steam,
    latent_heat, defaultParams, List.range_succ]

/-- Witness for C3's amended theorem, on a two-hour all-zero input from the
default half-capacity storage level. -/
theorem zero_irradiance_partial_then_off_witness :
    (simulateFrom defaultParams (Q_nominal_W defaultParams)
        (GOR defaultParams) 90000000 [(0, 0), (1, 0)]).map
        (fun r => (r.Q_med_W, r.storage_J, r.mode)) =
      ((90000000 : ℚ) / 3600, 0, Mode.partialStorage) ::
        [((1 : ℕ), (0 : ℚ))].map (fun _ => ((0 : ℚ), (0 : ℚ), Mode.off)) :=
  zero_irradiance_partial_then_off defaultParams (Q_nominal_W defaultParams)
    (GOR defaultParams) 90000000 (0, 0) [(1, 0)] rfl
    (by intro y hy
        rw [List.mem_singleton.mp hy])
    (by norm_num)
    (by norm_num [Q_nominal_W, M_steam, latent_heat, defaultParams])

/-- C4 counterexample: with the preheater TTD raised to 20 °C, the vapor
recorded as extracted from effect 0 for preheating exceeds the vapor that
effect 0 produces in the forward pass (which is zero there). -/
theorem preheat_extraction_exceeds_vapor :
    (effects highTTDParams 0).vapor < M_vapor_preheat highTTDParams 0 := by
  norm_num [effects, mkEffect, M_steam, M_vapor_preheat, T_feed_in0,
    preheatResult, preheatStages, preheatStageFold, T_effect, delta_T_total,
    latent_heat, specific_heat_capacity, List.range_succ, Function.update,
    highTTDParams]

/-- C4 amended: the heating vapor for effect i+1 is the preheat remainder
clamped at zero, `max 0 (vapor[i] − extraction[i])`, times the latent heat;
whenever the recorded extraction is non-negative, that clamped remainder
never exceeds the vapor effect i produced (the extraction itself may). -/
theorem preheat_remainder_flows_forward (p : MEDParameters) (i : ℕ)
    (h : 0 ≤ M_vapor_preheat p i) :
    (effects p (i + 1)).Q_input =
      max 0 ((effects p i).vapor - M_vapor_preheat p i) *
        latent_heat (T_effect p i) ∧
    max 0 ((effects p i).vapor - M_vapor_preheat p i)
        ≤ (effects p i).vapor :=
  ⟨rfl, max_le (vapor_nonneg p i) (by linarith)⟩

/-- Witness for C4's amended theorem at the default parameters, stage 1. -/
theorem preheat_remainder_flows_forward_witness :
    (effects defaultParams 1).Q_input =
      max 0 ((effects defaultParams 0).vapor -
          M_vapor_preheat defaultParams 0) *
        latent_heat (T_effect defaultParams 0) ∧
    max 0 ((effects defaultParams 0).vapor - M_vapor_preheat defaultParams 0)
        ≤ (effects defaultParams 0).vapor :=
  preheat_remainder_flows_forward defaultParams 0
    (by norm_num [M_vapor_preheat, preheatResult, preheatStages,
      preheatStageFold, T_effect, delta_T_total, latent_heat,
      specific_heat_capacity, List.range_succ, Function.update,
      defaultParams])

/-- C5 counterexample: at `extremeParams` the brine flow of effect 0 is
negative — the computed vapor exceeds the feed flow and the source does not
clamp the brine (line 156). -/
theorem brine_flow_negative : (effects extremeParams 0).brine < 0 := by
  norm_num [effects, mkEffect, M_steam, T_feed_in0, preheatResult,
    preheatStages, preheatStageFold, T_effect, delta_T_total, latent_heat,
    specific_heat_capacity, List.range_succ, extremeParams]

/-- C5 amended: vapor is never negative for any parameters; an effect's
area is non-negative whenever its heat input and heat-transfer coefficient
are non-negative; every storage level of the simulation is non-negative
when the configured capacity is non-negative. Brine is feed − vapor,
unclamped, and can be negative (see the counterexample). -/
theorem vapor_area_storage_nonneg (p : MEDParameters) (i : ℕ) (Qnom g : ℚ)
    (res : List (ℕ × ℚ)) (hC : 0 ≤ p.storage_capacity_kWh)
    (hQ : 0 ≤ (effects p i).Q_input)
    (hh : 0 ≤ heat_transfer_coefficient_evaporator (T_effect p i)) :
    0 ≤ (effects p i).vapor ∧ 0 ≤ (effects p i).area ∧
    (effects p i).brine = (effects p i).feed - (effects p i).vapor ∧
    ∀ r ∈ simulate_daily_operation p Qnom g res, 0 ≤ r.storage_J := by
  refine ⟨vapor_nonneg p i, ?_, ?_, ?_⟩
  · cases i with
    | zero => exact mkEffect_area_nonneg p 0 _ _ _ _ hQ hh
    | succ n => exact mkEffect_area_nonneg p (n + 1) _ _ _ _ hQ hh
  · cases i with
    | zero => exact rfl
    | succ n => exact rfl
  · intro r hr
    have hCJ : 0 ≤ storage_capacity_J p := mul_nonneg hC (by norm_num)
    exact (simulateFrom_storage_bounds p Qnom g hCJ res _ (by linarith)
      (by linarith) r hr).1

/-- Witness for C5's amended theorem at the default parameters, effect 0,
on a one-hour zero-irradiance input. -/
theorem vapor_area_storage_nonneg_witness :
    0 ≤ (effects defaultParams 0).vapor ∧
    0 ≤ (effects defaultParams 0).area ∧
    (effects defaultParams 0).brine =
      (effects defaultParams 0).feed - (effects defaultParams 0).vapor ∧
    0 ≤ (89996400 : ℚ) := by
  have h := vapor_area_storage_nonneg defaultParams 0 1 0 [(0, 0)]
    (by norm_num [defaultParams])
    (by norm_num [effects, mkEffect, M_steam, latent_heat, defaultParams])
    (by norm_num [heat_transfer_coefficient_evaporator, T_effect,
      delta_T_total, defaultParams])
  refine ⟨h.1, h.2.1, h.2.2.1, ?_⟩
  exact h.2.2.2 ⟨0, 0, 1, 89996400, 0, Mode.storageOnly⟩
    (by norm_num [simulate_daily_operation, simulateFrom, dispatchStep,
      hourDistillate, storage_capacity_J, Q_solar_W, defaultParams])

/-- Mass and salt balance of one forward-pass iteration: feed splits
exactly into brine and vapor; above the 1e-6 brine guard the brine salinity
is `feed·S_in/brine` (equivalently, salt `brine·S_brine = feed·S_in` is
conserved); at or below the guard the salinity is carried through. -/
theorem mkEffect_mass_salt (p : MEDParameters) (i : ℕ)
    (Tin Sin feed Qin : ℚ) :
    (mkEffect p i Tin Sin feed Qin).feed =
      (mkEffect p i Tin Sin feed Qin).brine +
        (mkEffect p i Tin Sin feed Qin).vapor ∧
    (1/1000000 < (mkEffect p i Tin Sin feed Qin).brine →
      (mkEffect p i Tin Sin feed Qin).S_brine =
        (mkEffect p i Tin Sin feed Qin).feed *
            (mkEffect p i Tin Sin feed Qin).S_in /
          (mkEffect p i Tin Sin feed Qin).brine ∧
      (mkEffect p i Tin Sin feed Qin).brine *
          (mkEffect p i Tin Sin feed Qin).S_brine =
        (mkEffect p i Tin Sin feed Qin).feed *
          (mkEffect p i Tin Sin feed Qin).S_in) ∧
    (¬ 1/1000000 < (mkEffect p i Tin Sin feed Qin).brine →
      (mkEffect p i Tin Sin feed Qin).S_brine =
        (mkEffect p i Tin Sin feed Qin).S_in) := by
  unfold mkEffect
  dsimp only
  refine ⟨by ring, ?_, ?_⟩
  · intro hbr
    rw [if_pos hbr]
    refine ⟨rfl, ?_⟩
    have hne : feed - max 0 ((Qin - max 0 (feed * specific_heat_capacity Tin
        Sin * (T_effect p i - Tin))) / latent_heat (T_effect p i)) ≠ 0 :=
      ne_of_gt (lt_trans (by norm_num) hbr)
    rw [mul_comm, div_mul_cancel₀ _ hne]
  · intro hbr
    rw [if_neg hbr]

/-- C6: for every effect, feed = brine + vapor exactly, and the brine
salinity follows the guarded salt balance of the source: above the 1e-6
guard it is `feed·S_in/brine` (conserving salt), otherwise the inlet
salinity is carried through. -/
theorem mass_and_salt_balance (p : MEDParameters) (i : ℕ) :
    (effects p i).feed = (effects p i).brine + (effects p i).vapor ∧
    (1/1000000 < (effects p i).brine →
      (effects p i).S_brine =
        (effects p i).feed * (effects p i).S_in / (effects p i).brine ∧
      (effects p i).brine * (effects p i).S_brine =
        (effects p i).feed * (effects p i).S_in) ∧
    (¬ 1/1000000 < (effects p i).brine →
      (effects p i).S_brine = (effects p i).S_in) := by
  cases i with
  | zero => exact mkEffect_mass_salt p 0 _ _ _ _
  | succ n => exact mkEffect_mass_salt p (n + 1) _ _ _ _

/-- Witness for C6: the guarded branch at the default parameters (brine
well above the guard) and the carry-through branch at zero feed flow. -/
theorem mass_and_salt_balance_witness :
    (effects defaultParams 0).feed =
        (effects defaultParams 0).brine + (effects defaultParams 0).vapor ∧
    (effects defaultParams 0).S_brine =
        (effects defaultParams 0).feed * (effects defaultParams 0).S_in /
          (effects defaultParams 0).brine ∧
    (effects zeroFeedParams 0).S_brine = (effects zeroFeedParams 0).S_in :=
  ⟨(mass_and_salt_balance defaultParams 0).1,
   ((mass_and_salt_balance defaultParams 0).2.1
     (by norm_num [effects, mkEffect, M_steam, T_feed_in0, preheatResult,
       preheatStages, preheatStageFold, T_effect, delta_T_total, latent_heat,
       specific_heat_capacity, List.range_succ, Function.update,
       M_vapor_preheat, defaultParams])).1,
   (mass_and_salt_balance zeroFeedParams 0).2.2
     (by norm_num [effects, mkEffect, M_steam, T_feed_in0, preheatResult,
       preheatStages, preheatStageFold, T_effect, delta_T_total, latent_heat,
       specific_heat_capacity, List.range_succ, Function.update,
       M_vapor_preheat, zeroFeedParams])⟩

/-- C7: the temperature ladder follows the source formula
`T_effect[i] = T_steam − (i+1)·Δ − BPE` with
`Δ = (T_steam − T_cw − n·BPE)/(n+1)`; at the default scenario (n=8,
T_steam=70, T_cw=20, BPE=0.8) the top effect is 2896/45 ≈ 64.36 °C. -/
theorem temperature_ladder_formula :
    (∀ (p : MEDParameters) (i : ℕ),
      T_effect p i = p.T_steam -
        (i + 1) * ((p.T_steam - p.T_cw - p.n_effects * p.BPE) /
          (p.n_effects + 1)) - p.BPE) ∧
    T_effect defaultParams 0 = 2896/45 ∧
    |T_effect defaultParams 0 - 6436/100| < 1/100 := by
  refine ⟨fun p i => rfl, ?_, ?_⟩
  · norm_num [T_effect, delta_T_total, defaultParams]
  · rw [abs_lt]
    constructor <;> norm_num [T_effect, delta_T_total, defaultParams]

/-- C8 counterexample: with BPE = 10 °C (so n·BPE = 80 exceeds the 50 °C
total drop) the ladder increases: T_effect[0] < T_effect[1]. -/
theorem temperature_ladder_increases_at_high_BPE :
    T_effect highBPEParams 0 < T_effect highBPEParams 1 := by
  norm_num [T_effect, delta_T_total, highBPEParams]

/-- C8 amended: the effect temperatures are strictly decreasing whenever
`n·BPE < T_steam − T_cw` (equivalently, the per-interval drop Δ is
positive), which holds at the default parameters. -/
theorem temperature_ladder_strict_mono (p : MEDParameters) (i : ℕ)
    (h : (p.n_effects : ℚ) * p.BPE < p.T_steam - p.T_cw) :
    T_effect p (i + 1) < T_effect p i := by
  have hd : 0 < delta_T_total p := by
    unfold delta_T_total
    exact div_pos (by linarith) (by positivity)
  unfold T_effect
  push_cast
  nlinarith [hd]

/-- Witness for C8's amended theorem at the default parameters. -/
theorem temperature_ladder_strict_mono_witness :
    T_effect defaultParams 1 < T_effect defaultParams 0 :=
  temperature_ladder_strict_mono defaultParams 0 (by norm_num [defaultParams])

/-- C9: `solve` raises no exception for any parameter set. The only two
divisions in the method whose operands are plain Python scalars — where a
zero denominator would raise `ZeroDivisionError` — are the
temperature-interval division by `n + 1` (line 81) and the steam-target
division by `5.14` (line 117), and neither denominator can be zero; every
other division has a numpy-scalar operand and degrades to nan/inf with a
`RuntimeWarning` instead of raising. The degenerate ratios are guarded as
claimed: GOR is reported as 0 when the steam consumption is 0 and the
specific area as 0 when the total distillate is 0, rather than performing
those divisions. -/
theorem solve_degenerate_guards (p : MEDParameters) :
    (∀ d ∈ pythonScalarDenominators p, d ≠ 0) ∧
    (M_steam p = 0 → GOR p = 0) ∧
    (M_total_distillate p = 0 → As p = 0) := by
  refine ⟨?_, ?_, ?_⟩
  · intro d hd
    rcases List.mem_cons.mp hd with h | h
    · subst h
      positivity
    · rw [List.mem_singleton.mp h]
      norm_num
  · intro hM
    simp [GOR, hM]
  · intro hd
    simp [As, hd]

/-- Witness for C9 at zero feed flow: there the steam rate and the total
distillate are both 0, both guards fire, and the first fallible
denominator is concretely nonzero. -/
theorem solve_degenerate_guards_witness :
    ((zeroFeedParams.n_effects : ℚ) + 1 ≠ 0) ∧
    GOR zeroFeedParams = 0 ∧ As zeroFeedParams = 0 :=
  ⟨(solve_degenerate_guards zeroFeedParams).1 _
      (by simp [pythonScalarDenominators]),
   (solve_degenerate_guards zeroFeedParams).2.1
      (by norm_num [M_steam, zeroFeedParams]),
   (solve_degenerate_guards zeroFeedParams).2.2
      (by norm_num [M_total_distillate, effects, mkEffect, M_steam,
        M_vapor_preheat, T_feed_in0, preheatResult, preheatStages,
        preheatStageFold, T_effect, delta_T_total, latent_heat,
        specific_heat_capacity, List.range_succ, Function.update,
        zeroFeedParams])⟩
